import Mathlib

/-!
Verification of the energy-calculator core of `app.py` (Anvi1312/energycalc).

The computational core of the repository is embedded shallowly:

* `calculate_base_energy` — the nested dictionary lookup (lines 7–69),
  returning `Option BaseProfile` for the `.get(..., {})` miss behaviour;
* `calculate_weather_adjustment` — the cascaded temperature bands
  (lines 71–99), with the factor split out as `weatherMultiplier`;
* `calculate_daily_energy` — the per-day breakdown builder (lines 101–130);
* `summarizeWeek` — the weekly aggregation performed inline in `main`
  (lines 538–562): pandas `sum`, `mean` and `idxmax` over the collected
  records, guarded by `if weekly_data:`;
* `weather_desc` — the descriptive band text of the UI (lines 430–447).

Real numbers of the source are modelled as rationals: every constant in
the program is a decimal literal, and all arithmetic performed on the
claimed paths is exact in ℚ.
-/

/-- A row of the static base-consumption table: kWh/day per category. -/
structure BaseProfile where
  lighting : ℚ
  fan_ac : ℚ
  appliances : ℚ
  water_heater : ℚ
  refrigerator : ℚ
  deriving Repr, DecidableEq

/-- Lines 7–69 of `app.py`: the nested dictionary
`base_consumption[flat_tenement][bhk]`, accessed with
`.get(flat_tenement, {}).get(bhk, {})`; a miss at either level yields the
empty dictionary, modelled as `none`. -/
def calculate_base_energy (flat_tenement bhk : String) : Option BaseProfile :=
  match flat_tenement, bhk with
  | "flat", "1BHK" => some ⟨1.5, 4.0, 3.5, 2.0, 1.8⟩
  | "flat", "2BHK" => some ⟨2.2, 6.0, 4.5, 2.5, 2.0⟩
  | "flat", "3BHK" => some ⟨3.0, 8.0, 6.0, 3.0, 2.2⟩
  | "tenement", "1BHK" => some ⟨1.8, 5.0, 3.0, 1.5, 1.6⟩
  | "tenement", "2BHK" => some ⟨2.5, 7.0, 4.0, 2.0, 1.8⟩
  | "tenement", "3BHK" => some ⟨3.5, 9.0, 5.5, 2.5, 2.0⟩
  | _, _ => none

/-- The dimensionless factor applied in each branch of
`calculate_weather_adjustment` (lines 82–99 of `app.py`). -/
def weatherMultiplier (temperature : ℚ) : ℚ :=
  if temperature < 18 then 0.1
  else if temperature < 22 then 0.3
  else if temperature < 26 then 0.6
  else if temperature < 30 then 0.8
  else if temperature < 35 then 1.0
  else 1.3

/-- Lines 71–99 of `app.py`: adjust fan/AC consumption by the cascaded
temperature bands.  Each branch returns `base_fan_ac * factor`. -/
def calculate_weather_adjustment (temperature base_fan_ac : ℚ) : ℚ :=
  if temperature < 18 then base_fan_ac * 0.1
  else if temperature < 22 then base_fan_ac * 0.3
  else if temperature < 26 then base_fan_ac * 0.6
  else if temperature < 30 then base_fan_ac * 0.8
  else if temperature < 35 then base_fan_ac * 1.0
  else base_fan_ac * 1.3

lemma calculate_weather_adjustment_eq (t b : ℚ) :
    calculate_weather_adjustment t b = b * weatherMultiplier t := by
  unfold calculate_weather_adjustment weatherMultiplier
  split_ifs <;> rfl

/-- The per-day record built by `calculate_daily_energy`
(lines 120–128 of `app.py`): the five categories plus the `total` key
added as the sum of the five values. -/
structure DailyBreakdown where
  lighting : ℚ
  fan_ac : ℚ
  appliances : ℚ
  water_heater : ℚ
  refrigerator : ℚ
  total : ℚ
  deriving Repr, DecidableEq

/-- Lines 101–130 of `app.py`: look up the base profile, return `None`
(`none`) when the lookup came back empty, otherwise build the daily
consumption dictionary and add `total = sum(daily_consumption.values())`
over the five category values. -/
def calculate_daily_energy (flat_tenement bhk : String) (temperature : ℚ) :
    Option DailyBreakdown :=
  match calculate_base_energy flat_tenement bhk with
  | none => none
  | some base_energy =>
    let adjusted_fan_ac := calculate_weather_adjustment temperature base_energy.fan_ac
    some { lighting := base_energy.lighting
           fan_ac := adjusted_fan_ac
           appliances := base_energy.appliances
           water_heater := base_energy.water_heater
           refrigerator := base_energy.refrigerator
           total := base_energy.lighting + adjusted_fan_ac + base_energy.appliances
             + base_energy.water_heater + base_energy.refrigerator }

/-- The weekly summary metrics displayed by `main`
(lines 549–562 of `app.py`). -/
structure WeeklySummary where
  totalEnergy : ℚ
  averageEnergy : ℚ
  peakDay : String
  deriving Repr, DecidableEq

/-- `df['Total Energy'].sum()` over the collected weekly records
(line 552 of `app.py`). -/
def weekTotal (records : List (String × DailyBreakdown)) : ℚ :=
  (records.map (fun r => r.2.total)).sum

/-- The entry selected by `df['Total Energy'].idxmax()` (line 561 of
`app.py`): scan left to right, replacing the current best only on a
strictly larger total, so the first occurrence of the maximum wins —
pandas `idxmax` semantics. -/
def peakEntry : (String × DailyBreakdown) → List (String × DailyBreakdown) →
    String × DailyBreakdown
  | best, [] => best
  | best, x :: xs => peakEntry (if best.2.total < x.2.total then x else best) xs

/-- Lines 538–562 of `app.py`: the weekly summary block.  `main` guards the
whole block with `if weekly_data:`, so an empty record list produces no
summary (`none`); otherwise it reports the sum of the totals, their mean
(`sum / len`), and the day label of the first entry attaining the maximum
total. -/
def summarizeWeek : List (String × DailyBreakdown) → Option WeeklySummary
  | [] => none
  | x :: xs =>
    let total := weekTotal (x :: xs)
    some { totalEnergy := total
           averageEnergy := total / (x :: xs).length
           peakDay := (peakEntry x xs).1 }

/-- Lines 430–447 of `app.py`: the descriptive weather text chosen by the
UI from the same cascaded thresholds. -/
def weather_desc (temperature : ℚ) : String :=
  if temperature < 18 then "Very Cold"
  else if temperature < 22 then "Cool"
  else if temperature < 26 then "Comfortable"
  else if temperature < 30 then "Warm"
  else if temperature < 35 then "Hot"
  else "Very Hot"

/-- The band-to-multiplier correspondence asserted between the UI text
cascade and the energy cascade. -/
def descMultiplier (desc : String) : Option ℚ :=
  match desc with
  | "Very Cold" => some 0.1
  | "Cool" => some 0.3
  | "Comfortable" => some 0.6
  | "Warm" => some 0.8
  | "Hot" => some 1.0
  | "Very Hot" => some 1.3
  | _ => none

/-! ## Helper lemmas shared between claims -/

/-- The daily breakdown produced for any configuration that the base table
resolves: four categories copied from the base profile, fan/AC scaled by
the weather multiplier, `total` the sum of the five. -/
lemma calculate_daily_energy_of_base (h r : String) (t : ℚ) (bp : BaseProfile)
    (hbp : calculate_base_energy h r = some bp) :
    calculate_daily_energy h r t =
      some { lighting := bp.lighting
             fan_ac := bp.fan_ac * weatherMultiplier t
             appliances := bp.appliances
             water_heater := bp.water_heater
             refrigerator := bp.refrigerator
             total := bp.lighting + bp.fan_ac * weatherMultiplier t + bp.appliances
               + bp.water_heater + bp.refrigerator } := by
  unfold calculate_daily_energy
  rw [hbp]
  simp [calculate_weather_adjustment_eq]

lemma calculate_daily_energy_of_none (h r : String) (t : ℚ)
    (hbp : calculate_base_energy h r = none) :
    calculate_daily_energy h r t = none := by
  unfold calculate_daily_energy
  rw [hbp]

/-- Every fan/AC base value in the static table is non-negative. -/
lemma base_fan_ac_nonneg (h r : String) (bp : BaseProfile)
    (hbp : calculate_base_energy h r = some bp) : 0 ≤ bp.fan_ac := by
  unfold calculate_base_energy at hbp
  split at hbp <;> simp_all <;> rw [← hbp] <;> norm_num

/-- The weather multiplier is monotone in temperature. -/
lemma weatherMultiplier_mono {t1 t2 : ℚ} (hle : t1 ≤ t2) :
    weatherMultiplier t1 ≤ weatherMultiplier t2 := by
  unfold weatherMultiplier
  split_ifs <;> try norm_num
  all_goals linarith

/-! ## Claim theorems -/

/-- C1: for every one of the 6 valid (housing_type, room_config) pairs,
`calculate_base_energy` returns exactly the five per-category base values
of the spec table in §4.1. -/
theorem C1_lookup_base_profile_table :
    calculate_base_energy "flat" "1BHK" = some ⟨1.5, 4.0, 3.5, 2.0, 1.8⟩ ∧
    calculate_base_energy "flat" "2BHK" = some ⟨2.2, 6.0, 4.5, 2.5, 2.0⟩ ∧
    calculate_base_energy "flat" "3BHK" = some ⟨3.0, 8.0, 6.0, 3.0, 2.2⟩ ∧
    calculate_base_energy "tenement" "1BHK" = some ⟨1.8, 5.0, 3.0, 1.5, 1.6⟩ ∧
    calculate_base_energy "tenement" "2BHK" = some ⟨2.5, 7.0, 4.0, 2.0, 1.8⟩ ∧
    calculate_base_energy "tenement" "3BHK" = some ⟨3.5, 9.0, 5.5, 2.5, 2.0⟩ :=
  ⟨rfl, rfl, rfl, rfl, rfl, rfl⟩

/-- C2: the weather multiplier realises the six half-open bands with the
stated values; each exact band boundary belongs to the upper band and every
temperature yields one of the six defined multipliers, with no clamping. -/
theorem C2_weather_multiplier_bands (t : ℚ) :
    (t < 18 → weatherMultiplier t = 0.1) ∧
    (18 ≤ t → t < 22 → weatherMultiplier t = 0.3) ∧
    (22 ≤ t → t < 26 → weatherMultiplier t = 0.6) ∧
    (26 ≤ t → t < 30 → weatherMultiplier t = 0.8) ∧
    (30 ≤ t → t < 35 → weatherMultiplier t = 1.0) ∧
    (35 ≤ t → weatherMultiplier t = 1.3) := by
  unfold weatherMultiplier
  refine ⟨?_, ?_, ?_, ?_, ?_, ?_⟩ <;> intros <;> split_ifs <;>
    first | rfl | linarith

theorem C2_weather_multiplier_bands_witness :
    weatherMultiplier 17.9 = 0.1 ∧ weatherMultiplier 18 = 0.3 ∧
    weatherMultiplier 22 = 0.6 ∧ weatherMultiplier 30 = 1.0 ∧
    weatherMultiplier 35 = 1.3 :=
  ⟨(C2_weather_multiplier_bands 17.9).1 (by norm_num),
   (C2_weather_multiplier_bands 18).2.1 (by norm_num) (by norm_num),
   (C2_weather_multiplier_bands 22).2.2.1 (by norm_num) (by norm_num),
   (C2_weather_multiplier_bands 30).2.2.2.2.1 (by norm_num) (by norm_num),
   (C2_weather_multiplier_bands 35).2.2.2.2.2 (by norm_num)⟩

/-- C3: for every configuration the base table resolves and every
temperature, the daily breakdown copies lighting, appliances, water_heater
and refrigerator from the base profile, scales fan/AC by the weather
multiplier, and sets `total` to the sum of the five category values. -/
theorem C3_daily_breakdown_structure (h r : String) (t : ℚ) (bp : BaseProfile)
    (hbp : calculate_base_energy h r = some bp) :
    ∃ d : DailyBreakdown, calculate_daily_energy h r t = some d ∧
      d.lighting = bp.lighting ∧
      d.appliances = bp.appliances ∧
      d.water_heater = bp.water_heater ∧
      d.refrigerator = bp.refrigerator ∧
      d.fan_ac = bp.fan_ac * weatherMultiplier t ∧
      d.total = d.lighting + d.fan_ac + d.appliances + d.water_heater
        + d.refrigerator := by
  refine ⟨_, calculate_daily_energy_of_base h r t bp hbp,
    rfl, rfl, rfl, rfl, rfl, rfl⟩

theorem C3_daily_breakdown_structure_witness :
    (calculate_daily_energy "flat" "2BHK" 25).isSome = true ∧
    Option.map DailyBreakdown.lighting (calculate_daily_energy "flat" "2BHK" 25) =
      some 2.2 := by
  obtain ⟨d, hd, hlight, -, -, -, -, -⟩ :=
    C3_daily_breakdown_structure "flat" "2BHK" 25 ⟨2.2, 6.0, 4.5, 2.5, 2.0⟩ rfl
  rw [hd]
  exact ⟨rfl, by simp [hlight]⟩

/-- C5: the weekly summary on an empty record sequence is an explicit
absent result, never a zero/NaN summary; the division by the record count
is never reached. -/
theorem C5_empty_week_signals_error : summarizeWeek [] = none := rfl

/-- C9: the two worked examples of the spec, with exact equality of every
field. -/
theorem C9_worked_examples :
    calculate_daily_energy "flat" "2BHK" 25 =
      some ⟨2.2, 3.6, 4.5, 2.5, 2.0, 14.8⟩ ∧
    calculate_daily_energy "tenement" "1BHK" 40 =
      some ⟨1.8, 6.5, 3.0, 1.5, 1.6, 14.4⟩ := by
  have hw25 : weatherMultiplier 25 = 0.6 := by unfold weatherMultiplier; norm_num
  have hw40 : weatherMultiplier 40 = 1.3 := by unfold weatherMultiplier; norm_num
  constructor
  · rw [calculate_daily_energy_of_base "flat" "2BHK" 25 ⟨2.2, 6.0, 4.5, 2.5, 2.0⟩ rfl,
      hw25]
    norm_num
  · rw [calculate_daily_energy_of_base "tenement" "1BHK" 40 ⟨1.8, 5.0, 3.0, 1.5, 1.6⟩ rfl,
      hw40]
    norm_num

/-- C10: the UI weather-description cascade and the energy multiplier
cascade classify every temperature into corresponding bands. -/
theorem C10_desc_and_multiplier_bands_agree (t : ℚ) :
    descMultiplier (weather_desc t) = some (weatherMultiplier t) := by
  unfold descMultiplier weather_desc weatherMultiplier
  split_ifs <;> rfl

/-- C6: any (housing_type, room_config) pair outside the enumerated domain
makes the base lookup return an explicit absent result, and the daily
estimate returns NotFound; both are total functions on arbitrary strings. -/
theorem C6_invalid_configuration_not_found (h r : String) (t : ℚ)
    (hinv : ¬((h = "flat" ∨ h = "tenement") ∧
      (r = "1BHK" ∨ r = "2BHK" ∨ r = "3BHK"))) :
    calculate_base_energy h r = none ∧ calculate_daily_energy h r t = none := by
  have hb : calculate_base_energy h r = none := by
    unfold calculate_base_energy
    split <;> simp_all
  exact ⟨hb, calculate_daily_energy_of_none h r t hb⟩

theorem C6_invalid_configuration_not_found_witness :
    calculate_base_energy "villa" "2BHK" = none ∧
    calculate_daily_energy "villa" "2BHK" 25 = none :=
  C6_invalid_configuration_not_found "villa" "2BHK" 25 (by simp)

/-- C7: for a fixed configuration, two runs at different temperatures agree
on the lighting, appliances, water_heater and refrigerator fields; only
fan/AC (and hence the total) can differ. -/
theorem C7_only_fan_ac_varies_with_temperature (h r : String) (t1 t2 : ℚ)
    (d1 d2 : DailyBreakdown)
    (h1 : calculate_daily_energy h r t1 = some d1)
    (h2 : calculate_daily_energy h r t2 = some d2) :
    d1.lighting = d2.lighting ∧ d1.appliances = d2.appliances ∧
    d1.water_heater = d2.water_heater ∧ d1.refrigerator = d2.refrigerator := by
  rcases hbe : calculate_base_energy h r with _ | bp
  · rw [calculate_daily_energy_of_none h r t1 hbe] at h1
    exact absurd h1 (by simp)
  · rw [calculate_daily_energy_of_base h r t1 bp hbe] at h1
    rw [calculate_daily_energy_of_base h r t2 bp hbe] at h2
    obtain rfl := Option.some.inj h1
    obtain rfl := Option.some.inj h2
    exact ⟨rfl, rfl, rfl, rfl⟩

theorem C7_only_fan_ac_varies_with_temperature_witness :
    (⟨2.2, 0.6, 4.5, 2.5, 2.0, 11.8⟩ : DailyBreakdown).lighting =
      (⟨2.2, 7.8, 4.5, 2.5, 2.0, 19.0⟩ : DailyBreakdown).lighting ∧
    (⟨2.2, 0.6, 4.5, 2.5, 2.0, 11.8⟩ : DailyBreakdown).appliances =
      (⟨2.2, 7.8, 4.5, 2.5, 2.0, 19.0⟩ : DailyBreakdown).appliances ∧
    (⟨2.2, 0.6, 4.5, 2.5, 2.0, 11.8⟩ : DailyBreakdown).water_heater =
      (⟨2.2, 7.8, 4.5, 2.5, 2.0, 19.0⟩ : DailyBreakdown).water_heater ∧
    (⟨2.2, 0.6, 4.5, 2.5, 2.0, 11.8⟩ : DailyBreakdown).refrigerator =
      (⟨2.2, 7.8, 4.5, 2.5, 2.0, 19.0⟩ : DailyBreakdown).refrigerator := by
  have hw10 : weatherMultiplier 10 = 0.1 := by unfold weatherMultiplier; norm_num
  have hw40 : weatherMultiplier 40 = 1.3 := by unfold weatherMultiplier; norm_num
  have h1 : calculate_daily_energy "flat" "2BHK" 10 =
      some ⟨2.2, 0.6, 4.5, 2.5, 2.0, 11.8⟩ := by
    rw [calculate_daily_energy_of_base "flat" "2BHK" 10 ⟨2.2, 6.0, 4.5, 2.5, 2.0⟩ rfl,
      hw10]
    norm_num
  have h2 : calculate_daily_energy "flat" "2BHK" 40 =
      some ⟨2.2, 7.8, 4.5, 2.5, 2.0, 19.0⟩ := by
    rw [calculate_daily_energy_of_base "flat" "2BHK" 40 ⟨2.2, 6.0, 4.5, 2.5, 2.0⟩ rfl,
      hw40]
    norm_num
  exact C7_only_fan_ac_varies_with_temperature "flat" "2BHK" 10 40 _ _ h1 h2

/-- C8: the weather multiplier is monotonically non-decreasing in
temperature, and consequently, for a fixed configuration, fan/AC and the
total of the daily estimate are non-decreasing in temperature. -/
theorem C8_monotone_in_temperature :
    (∀ t1 t2 : ℚ, t1 ≤ t2 → weatherMultiplier t1 ≤ weatherMultiplier t2) ∧
    ∀ (h r : String) (t1 t2 : ℚ) (d1 d2 : DailyBreakdown), t1 ≤ t2 →
      calculate_daily_energy h r t1 = some d1 →
      calculate_daily_energy h r t2 = some d2 →
      d1.fan_ac ≤ d2.fan_ac ∧ d1.total ≤ d2.total := by
  refine ⟨fun t1 t2 hle => weatherMultiplier_mono hle, ?_⟩
  intro h r t1 t2 d1 d2 hle h1 h2
  rcases hbe : calculate_base_energy h r with _ | bp
  · rw [calculate_daily_energy_of_none h r t1 hbe] at h1
    exact absurd h1 (by simp)
  · rw [calculate_daily_energy_of_base h r t1 bp hbe] at h1
    rw [calculate_daily_energy_of_base h r t2 bp hbe] at h2
    obtain rfl := Option.some.inj h1
    obtain rfl := Option.some.inj h2
    have hfan : bp.fan_ac * weatherMultiplier t1 ≤ bp.fan_ac * weatherMultiplier t2 :=
      mul_le_mul_of_nonneg_left (weatherMultiplier_mono hle)
        (base_fan_ac_nonneg h r bp hbe)
    exact ⟨hfan, by simpa using by linarith⟩

theorem C8_monotone_in_temperature_witness :
    weatherMultiplier 20 ≤ weatherMultiplier 32 ∧
    (⟨1.5, 1.2, 3.5, 2.0, 1.8, 10.0⟩ : DailyBreakdown).fan_ac ≤
      (⟨1.5, 4.0, 3.5, 2.0, 1.8, 12.8⟩ : DailyBreakdown).fan_ac ∧
    (⟨1.5, 1.2, 3.5, 2.0, 1.8, 10.0⟩ : DailyBreakdown).total ≤
      (⟨1.5, 4.0, 3.5, 2.0, 1.8, 12.8⟩ : DailyBreakdown).total := by
  have hw20 : weatherMultiplier 20 = 0.3 := by unfold weatherMultiplier; norm_num
  have hw32 : weatherMultiplier 32 = 1.0 := by unfold weatherMultiplier; norm_num
  have h1 : calculate_daily_energy "flat" "1BHK" 20 =
      some ⟨1.5, 1.2, 3.5, 2.0, 1.8, 10.0⟩ := by
    rw [calculate_daily_energy_of_base "flat" "1BHK" 20 ⟨1.5, 4.0, 3.5, 2.0, 1.8⟩ rfl,
      hw20]
    norm_num
  have h2 : calculate_daily_energy "flat" "1BHK" 32 =
      some ⟨1.5, 4.0, 3.5, 2.0, 1.8, 12.8⟩ := by
    rw [calculate_daily_energy_of_base "flat" "1BHK" 32 ⟨1.5, 4.0, 3.5, 2.0, 1.8⟩ rfl,
      hw32]
    norm_num
  exact ⟨C8_monotone_in_temperature.1 20 32 (by norm_num),
    C8_monotone_in_temperature.2 "flat" "1BHK" 20 32 _ _ (by norm_num) h1 h2⟩

/-- The left-to-right scan of `peakEntry` selects exactly the first entry
of `best :: xs` attaining the maximum total: the result is an entry of the
list, every total is bounded by it, and every entry strictly before it has
a strictly smaller total. -/
lemma peakEntry_first_max :
    ∀ (xs : List (String × DailyBreakdown)) (best : String × DailyBreakdown),
    ∃ i, ∃ hi : i < (best :: xs).length,
      peakEntry best xs = (best :: xs).get ⟨i, hi⟩ ∧
      (∀ j (hj : j < (best :: xs).length),
        ((best :: xs).get ⟨j, hj⟩).2.total ≤ (peakEntry best xs).2.total) ∧
      (∀ j (hj : j < (best :: xs).length), j < i →
        ((best :: xs).get ⟨j, hj⟩).2.total < (peakEntry best xs).2.total) := by
  intro xs
  induction xs with
  | nil =>
    intro best
    refine ⟨0, by simp, rfl, ?_, ?_⟩
    · intro j hj
      have hj0 : j = 0 := by simpa using hj
      subst hj0
      exact le_refl _
    · intro j hj hji
      exact absurd hji (Nat.not_lt_zero j)
  | cons x t ih =>
    intro best
    by_cases hbx : best.2.total < x.2.total
    · have hred : peakEntry best (x :: t) = peakEntry x t := by
        show peakEntry (if best.2.total < x.2.total then x else best) t = peakEntry x t
        rw [if_pos hbx]
      obtain ⟨i, hi, heq, hmax, hfirst⟩ := ih x
      have hi2 : i + 1 < (best :: x :: t).length := by
        simp only [List.length_cons] at hi ⊢
        omega
      refine ⟨i + 1, hi2, ?_, ?_, ?_⟩
      · rw [hred]
        exact heq
      · intro j hj
        rw [hred]
        cases j with
        | zero =>
          exact le_of_lt (lt_of_lt_of_le hbx (hmax 0 (by simp)))
        | succ j0 =>
          have hj0 : j0 < (x :: t).length := by
            simp only [List.length_cons] at hj ⊢
            omega
          exact hmax j0 hj0
      · intro j hj hji
        rw [hred]
        cases j with
        | zero =>
          exact lt_of_lt_of_le hbx (hmax 0 (by simp))
        | succ j0 =>
          have hj0 : j0 < (x :: t).length := by
            simp only [List.length_cons] at hj ⊢
            omega
          exact hfirst j0 hj0 (by omega)
    · have hred : peakEntry best (x :: t) = peakEntry best t := by
        show peakEntry (if best.2.total < x.2.total then x else best) t = peakEntry best t
        rw [if_neg hbx]
      have hxb : x.2.total ≤ best.2.total := le_of_not_lt hbx
      obtain ⟨i, hi, heq, hmax, hfirst⟩ := ih best
      cases i with
      | zero =>
        refine ⟨0, by simp, ?_, ?_, ?_⟩
        · rw [hred]
          exact heq
        · intro j hj
          rw [hred]
          cases j with
          | zero => exact hmax 0 (by simp)
          | succ j0 =>
            cases j0 with
            | zero => exact le_trans hxb (hmax 0 (by simp))
            | succ j1 =>
              have hj1 : j1 + 1 < (best :: t).length := by
                simp only [List.length_cons] at hj ⊢
                omega
              exact hmax (j1 + 1) hj1
        · intro j hj hji
          exact absurd hji (Nat.not_lt_zero j)
      | succ i0 =>
        have hi2 : i0 + 2 < (best :: x :: t).length := by
          simp only [List.length_cons] at hi ⊢
          omega
        refine ⟨i0 + 2, hi2, ?_, ?_, ?_⟩
        · rw [hred]
          exact heq
        · intro j hj
          rw [hred]
          cases j with
          | zero => exact hmax 0 (by simp)
          | succ j0 =>
            cases j0 with
            | zero => exact le_trans hxb (hmax 0 (by simp))
            | succ j1 =>
              have hj1 : j1 + 1 < (best :: t).length := by
                simp only [List.length_cons] at hj ⊢
                omega
              exact hmax (j1 + 1) hj1
        · intro j hj hji
          rw [hred]
          cases j with
          | zero => exact hfirst 0 (by simp) (by omega)
          | succ j0 =>
            cases j0 with
            | zero => exact lt_of_le_of_lt hxb (hfirst 0 (by simp) (by omega))
            | succ j1 =>
              have hj1 : j1 + 1 < (best :: t).length := by
                simp only [List.length_cons] at hj ⊢
                omega
              exact hfirst (j1 + 1) hj1 (by omega)

/-- C4: for every non-empty record sequence, the weekly summary reports the
sum of all totals, their mean (the sum divided by the record count), and
the day label of the first entry attaining the maximum total. -/
theorem C4_weekly_summary (x : String × DailyBreakdown)
    (xs : List (String × DailyBreakdown)) (s : WeeklySummary)
    (hs : summarizeWeek (x :: xs) = some s) :
    s.totalEnergy = ((x :: xs).map (fun r => r.2.total)).sum ∧
    s.averageEnergy = s.totalEnergy / ((x :: xs).length : ℚ) ∧
    ∃ i, ∃ hi : i < (x :: xs).length,
      s.peakDay = ((x :: xs).get ⟨i, hi⟩).1 ∧
      (∀ j (hj : j < (x :: xs).length),
        ((x :: xs).get ⟨j, hj⟩).2.total ≤ ((x :: xs).get ⟨i, hi⟩).2.total) ∧
      ∀ j (hj : j < (x :: xs).length), j < i →
        ((x :: xs).get ⟨j, hj⟩).2.total < ((x :: xs).get ⟨i, hi⟩).2.total := by
  obtain rfl : ({ totalEnergy := weekTotal (x :: xs)
                  averageEnergy := weekTotal (x :: xs) / ((x :: xs).length : ℚ)
                  peakDay := (peakEntry x xs).1 } : WeeklySummary) = s :=
    Option.some.inj hs
  obtain ⟨i, hi, heq, hmax, hfirst⟩ := peakEntry_first_max xs x
  refine ⟨rfl, rfl, i, hi, congrArg Prod.fst heq, ?_, ?_⟩
  · intro j hj
    have h := hmax j hj
    rwa [heq] at h
  · intro j hj hji
    have h := hfirst j hj hji
    rwa [heq] at h

def wkMon : String × DailyBreakdown := ("Monday", ⟨1, 2, 3, 4, 0, 10⟩)

def wkTue : String × DailyBreakdown := ("Tuesday", ⟨1, 2, 3, 4, 2, 12⟩)

theorem C4_weekly_summary_witness :
    (⟨22, 11, "Tuesday"⟩ : WeeklySummary).totalEnergy =
      ([wkMon, wkTue].map (fun r => r.2.total)).sum ∧
    (⟨22, 11, "Tuesday"⟩ : WeeklySummary).averageEnergy =
      (⟨22, 11, "Tuesday"⟩ : WeeklySummary).totalEnergy /
        (([wkMon, wkTue] : List (String × DailyBreakdown)).length : ℚ) := by
  have hsum : summarizeWeek [wkMon, wkTue] = some ⟨22, 11, "Tuesday"⟩ := by
    unfold summarizeWeek weekTotal peakEntry wkMon wkTue
    norm_num [peakEntry]
  have h := C4_weekly_summary wkMon [wkTue] ⟨22, 11, "Tuesday"⟩ hsum
  exact ⟨h.1, h.2.1⟩
